import Mathlib

/-!
Shallow embedding of `src/example/widgets/widget.py` (class
`OrangeProductionWidget`) for verification of its specification.

Modelling conventions:
* Timestamps are `Int` nanoseconds since the Unix epoch: the `records`
  DataFrame stores the `timestamp` column as `datetime64[ns]`, which is an
  `int64` count of nanoseconds, and `DatetimePicker` values convert exactly
  into that representation.
* `new_timestamp` / `timestamp_input.value` and `new_amount` /
  `amount_input.value` are parameter-bound pairs (created with
  `Widget.from_param`), so each pair is modelled as a single draft field.
* Python expressions that can raise (`None < 0`, formatting `None`) are
  modelled in `Option`; `none` stands for a propagated exception.
* `DataFrame.sort_values("timestamp")` is modelled two ways: abstractly, as a
  parameter constrained by the documented contract of a sort (output sorted by
  the key, rows a permutation of the input) -- pandas does not promise a tie
  order for the default `kind='quicksort'` -- and concretely, by `npArgsort`,
  a transcription of numpy's scalar indirect introsort (`aquicksort` in
  `npysort`), which is the default portable code path behind
  `ndarray.argsort(kind='quicksort')` that `sort_values` invokes via
  `nargsort`.
-/

/-- Classification tag of the feedback display: the widget pushes
`css_classes = ["error"]` or `["success"]` on `_feedback_display`, and the
pane starts with no class. -/
inductive FeedbackKind where
  | none
  | error
  | success
deriving DecidableEq, Repr

/-- The user-visible feedback: the `feedback` string parameter together with
the css classification of `_feedback_display`. -/
structure Feedback where
  message : String
  kind : FeedbackKind
deriving DecidableEq, Repr

/-- One row of the `records` DataFrame: a timestamp (nanoseconds since the
epoch, the `datetime64[ns]` representation) and an amount. -/
structure Record where
  ts : Int
  amount : Int
deriving DecidableEq, Repr

/-- The unsubmitted form state: `new_timestamp` and `new_amount`, either of
which may be empty (`None`). -/
structure Draft where
  ts : Option Int
  amount : Option Int
deriving DecidableEq, Repr

/-- Timestamp order on records, the key order of
`sort_values("timestamp")`. -/
def tsLe (a b : Record) : Prop := a.ts ≤ b.ts

instance : DecidableRel tsLe := fun a b => inferInstanceAs (Decidable (a.ts ≤ b.ts))

instance : IsTotal Record tsLe := ⟨fun a b => Int.le_total a.ts b.ts⟩

instance : IsTrans Record tsLe := ⟨fun _ _ _ h1 h2 => le_trans h1 h2⟩

/-- The log is sorted ascending by timestamp: every adjacent pair is in
order. -/
def tsSorted (l : List Record) : Prop := l.Chain' tsLe

instance instDecTsSorted : (l : List Record) → Decidable (tsSorted l)
  | [] => Decidable.isTrue List.chain'_nil
  | [_] => Decidable.isTrue (List.chain'_singleton _)
  | _a :: b :: l =>
    have : Decidable (List.Chain' tsLe (b :: l)) := instDecTsSorted (b :: l)
    decidable_of_decidable_of_iff List.chain'_cons.symm

/-- The stable sort by timestamp used as the reference point for the spec
sentence "append then stable-sort by timestamp". -/
def stableSortTs (l : List Record) : List Record := l.insertionSort tsLe

/-- `pandas.Timestamp.timestamp()`: POSIX seconds of a nanosecond instant, as
an exact rational (the float rounding of the real code is outside the
model). -/
def tsSeconds (t : Int) : ℚ := (t : ℚ) / 1000000000

/-- The `"data"` entry built by `_update_chart`:
`[[ts.timestamp() * 1000, amount] for ts, amount in zip(records["timestamp"], records["amount"])]`.
The two columns are extracted and zipped exactly as in the source. -/
def chartSeriesData (records : List Record) : List (ℚ × Int) :=
  ((records.map Record.ts).zip (records.map Record.amount)).map
    (fun p => (tsSeconds p.1 * 1000, p.2))

/-- The state owned by `OrangeProductionWidget`: the `records` parameter, the
feedback (string plus css classification), and the series data of the ECharts
pane (`_chart.object["series"][0]["data"]`; the remaining entries of the
option dict are constants and carry no state). -/
structure WidgetState where
  records : List Record
  feedback : Feedback
  chartData : List (ℚ × Int)
deriving DecidableEq, Repr

/-- Initial state: empty `records` DataFrame, empty feedback string with no
css class, and `_empty_chart_option()` whose series list is empty. -/
def initState : WidgetState :=
  { records := [], feedback := ⟨"", FeedbackKind.none⟩, chartData := [] }

/-- Two-digit zero padding, as produced by `%m %d %H %M %S`. -/
def pad2 (n : Nat) : String := if n < 10 then "0" ++ toString n else toString n

/-- Four-digit zero padding for `%Y` (all representable `datetime64[ns]`
years have four digits). -/
def pad4 (n : Nat) : String :=
  if n < 10 then "000" ++ toString n
  else if n < 100 then "00" ++ toString n
  else if n < 1000 then "0" ++ toString n
  else toString n

/-- Proleptic-Gregorian civil date from a count of days since 1970-01-01
(Howard Hinnant's `civil_from_days`, the standard epoch/civil conversion the
datetime stack performs). Returns `(year, month, day)`. -/
def civilFromDays (z0 : Int) : Int × Nat × Nat :=
  let z := z0 + 719468
  let era := z.fdiv 146097
  let doe := (z - era * 146097).toNat
  let yoe := (doe - doe / 1460 + doe / 36524 - doe / 146096) / 365
  let y := (yoe : Int) + era * 400
  let doy := doe - (365 * yoe + yoe / 4 - yoe / 100)
  let mp := (5 * doy + 2) / 153
  let d := doy - (153 * mp + 2) / 5 + 1
  let m := if mp < 10 then mp + 3 else mp - 9
  (if m ≤ 2 then y + 1 else y, m, d)

/-- `f"{t:%Y-%m-%d %H:%M:%S}"` on a nanosecond instant. -/
def fmtTimestamp (tNs : Int) : String :=
  let secs := tNs.fdiv 1000000000
  let days := secs.fdiv 86400
  let sod := (secs - days * 86400).toNat
  let ymd := civilFromDays days
  pad4 ymd.1.toNat ++ "-" ++ pad2 ymd.2.1 ++ "-" ++ pad2 ymd.2.2 ++ " " ++
    pad2 (sod / 3600) ++ ":" ++ pad2 (sod % 3600 / 60) ++ ":" ++ pad2 (sod % 60)

/-- `_add_record`, parameterized by the implementation of
`concat(...).sort_values("timestamp").reset_index(drop=True)`'s sorting step.
Returns `none` when a Python exception would propagate (which the theorems
show never happens).

Control flow mirrors the source:
1. `if self.timestamp_input.value is None: feedback = "Error: ..."; return`
2. `if self.amount_input.value is None or self.new_amount < 0: ...; return`
   (the `or` short-circuits, so `None < 0` is never evaluated)
3. append the new row, sort by timestamp, reindex; assigning `records`
   triggers the `@depends("records", watch=True)` method `_update_chart`,
   which recomputes the chart series; then set the success feedback. -/
def addRecord (sortImpl : List Record → List Record) (d : Draft)
    (s : WidgetState) : Option WidgetState :=
  if d.ts.isNone then
    some { s with feedback := ⟨"Error: Please select a valid timestamp.", FeedbackKind.error⟩ }
  else
    match (if d.amount.isNone then some true else d.amount.map (fun a => decide (a < 0))) with
    | Option.none => none
    | some true =>
      some { s with feedback := ⟨"Error: Please enter a valid number of oranges.", FeedbackKind.error⟩ }
    | some false =>
      match d.ts, d.amount with
      | some t, some a =>
        let r := sortImpl (s.records ++ [⟨t, a⟩])
        some { records := r,
               chartData := chartSeriesData r,
               feedback := ⟨"Record added: " ++ toString a ++ " oranges at " ++
                              fmtTimestamp t, FeedbackKind.success⟩ }
      | _, _ => none

/-- `_update_chart` as a state transformer: recompute the chart series from
`records` and store it on the ECharts pane. -/
def updateChart (s : WidgetState) : WidgetState :=
  { s with chartData := chartSeriesData s.records }

/-- A sequence of button clicks: run `_add_record` on each draft in turn,
starting from the freshly initialized widget. -/
def runSubmits (sortImpl : List Record → List Record) (ds : List Draft) : WidgetState :=
  ds.foldl (fun s d => (addRecord sortImpl d s).getD s) initState

/-- Key lookup through the index array: numpy's `v[*p]`. -/
def keyAt (v : List Int) (i : Nat) : Int := v.getD i 0

/-- numpy's `INTP_SWAP` on the `tosort` index array. -/
def idxSwap (t : List Nat) (i j : Nat) : List Nat :=
  (t.set i (t.getD j 0)).set j (t.getD i 0)

/-- Inner shift loop of numpy's indirect insertion sort
(`while (pj > pl && LT(vp, v[*pk])) *pj-- = *pk--; *pj = vi;`). The
decreasing position `j` doubles as the structural recursion measure. -/
def ainsShift (v : List Int) (vp : Int) (vi : Nat) (lo : Nat) :
    Nat → List Nat → List Nat
  | 0, t => t.set 0 vi
  | j + 1, t =>
    if lo < j + 1 ∧ vp < keyAt v (t.getD j 0) then
      ainsShift v vp vi lo j (t.set (j + 1) (t.getD j 0))
    else t.set (j + 1) vi

/-- Outer loop of numpy's indirect insertion sort
(`for (pi = pl + 1; pi <= pr; ++pi)`); the fuel counts the remaining
iterations, `hi + 1 - pi` at every call. -/
def ainsLoop (v : List Int) (lo hi : Nat) : Nat → Nat → List Nat → List Nat
  | 0, _, t => t
  | k + 1, pi, t =>
    if pi ≤ hi then
      ainsLoop v lo hi k (pi + 1) (ainsShift v (keyAt v (t.getD pi 0)) (t.getD pi 0) lo pi t)
    else t

/-- numpy's indirect insertion sort of `tosort[lo..hi]` (inclusive). -/
def ains (v : List Int) (lo hi : Nat) (t : List Nat) : List Nat :=
  ainsLoop v lo hi (hi + 1 - lo) (lo + 1) t

/-- `do ++pi; while (LT(v[*pi], vp));` -- the left-to-right partition scan.
The fuel only bounds the recursion (every call site passes at least the
range length); the scan itself always stops at the pivot slot `pr - 1`
because `v[tosort[pr - 1]] = vp` there. -/
def scanUp (v : List Int) (vp : Int) (t : List Nat) : Nat → Nat → Nat
  | 0, pi => pi + 1
  | fuel + 1, pi =>
    if keyAt v (t.getD (pi + 1) 0) < vp then scanUp v vp t fuel (pi + 1)
    else pi + 1

/-- `do --pj; while (LT(vp, v[*pj]));` -- the right-to-left partition scan.
The fuel only bounds the recursion (every call site passes the current
position); the scan itself always stops at `pl` because the median-of-three
step left `v[tosort[pl]] <= vp`. -/
def scanDown (v : List Int) (vp : Int) (t : List Nat) : Nat → Nat → Nat
  | 0, pj => pj - 1
  | fuel + 1, pj =>
    if vp < keyAt v (t.getD (pj - 1) 0) then scanDown v vp t fuel (pj - 1)
    else pj - 1

/-- The Hoare partition exchange loop of numpy's `aquicksort`. The fuel is
spent one unit per exchange, and every call supplies more fuel than the
range length, which bounds the number of exchanges. Returns the final `pi`
and the updated index array. -/
def partLoop (v : List Int) (vp : Int) (pl pr : Nat) :
    Nat → Nat → Nat → List Nat → Nat × List Nat
  | 0, pi, _, t => (pi, t)
  | fuel + 1, pi, pj, t =>
    let pi2 := scanUp v vp t pr pi
    let pj2 := scanDown v vp t pj pj
    if pi2 ≥ pj2 then (pi2, t)
    else partLoop v vp pl pr fuel pi2 pj2 (idxSwap t pi2 pj2)

/-- Median-of-three pivot placement of numpy's `aquicksort`:
`if (LT(v[*pm], v[*pl])) SWAP; if (LT(v[*pr], v[*pm])) SWAP; if (LT(v[*pm], v[*pl])) SWAP;`. -/
def med3Adjust (v : List Int) (t : List Nat) (pl pm pr : Nat) : List Nat :=
  let t1 := if keyAt v (t.getD pm 0) < keyAt v (t.getD pl 0) then idxSwap t pm pl else t
  let t2 := if keyAt v (t1.getD pr 0) < keyAt v (t1.getD pm 0) then idxSwap t1 pr pm else t1
  if keyAt v (t2.getD pm 0) < keyAt v (t2.getD pl 0) then idxSwap t2 pm pl else t2

/-- Element read of numpy's indirect heapsort, whose `a = tosort - 1` makes
indexing 1-based over the subrange starting at `base`. -/
def hGet (t : List Nat) (base k : Nat) : Nat := t.getD (base + k - 1) 0

/-- Element write of numpy's indirect heapsort (1-based over the subrange). -/
def hSet (t : List Nat) (base k : Nat) (x : Nat) : List Nat := t.set (base + k - 1) x

/-- Sift-down loop of numpy's `aheapsort`
(`for (i = l, j = l*2; j <= n;) ... a[i] = tmp;`). The fuel exceeds the
heap depth at every call site. -/
def hSift (v : List Int) (base n tmp : Nat) : Nat → Nat → Nat → List Nat → List Nat
  | 0, i, _, t => hSet t base i tmp
  | fuel + 1, i, j, t =>
    if j ≤ n then
      let j2 := if j < n ∧ keyAt v (hGet t base j) < keyAt v (hGet t base (j + 1))
                then j + 1 else j
      if keyAt v tmp < keyAt v (hGet t base j2) then
        hSift v base n tmp fuel j2 (j2 + j2) (hSet t base i (hGet t base j2))
      else hSet t base i tmp
    else hSet t base i tmp

/-- Heap construction phase of numpy's `aheapsort`
(`for (l = n >> 1; l > 0; --l)`). -/
def hBuild (v : List Int) (base n : Nat) : Nat → List Nat → List Nat
  | 0, t => t
  | l + 1, t =>
    hBuild v base n l (hSift v base n (hGet t base (l + 1)) (n + 1) (l + 1) ((l + 1) * 2) t)

/-- Extraction phase of numpy's `aheapsort` (`for (; n > 1;)`). -/
def hExtract (v : List Int) (base : Nat) : Nat → List Nat → List Nat
  | 0, t => t
  | 1, t => t
  | n + 2, t =>
    let tmp := hGet t base (n + 2)
    let t1 := hSet t base (n + 2) (hGet t base 1)
    hExtract v base (n + 1) (hSift v base (n + 1) tmp (n + 2) 1 2 t1)

/-- numpy's indirect heapsort of `tosort[pl..pr]`, the introsort depth-limit
fallback (`aheapsort(vv, pl, pr - pl + 1)`). -/
def aheapsortRange (v : List Int) (t : List Nat) (pl pr : Nat) : List Nat :=
  let n := pr + 1 - pl
  hExtract v pl n (hBuild v pl n (n / 2) t)

/-- The body of numpy's `aquicksort`: introsort over `tosort[pl..pr]` with a
shared depth budget. Ranges of more than `SMALL_QUICKSORT = 15 + 1` elements
are partitioned (median-of-three, Hoare exchange scan); the smaller side is
processed first and the larger side afterwards, exactly the traversal order
of the C code's explicit stack, with the decremented `depth_limit` threaded
through in that order; once the budget is spent a range falls back to
heapsort; small ranges are insertion sorted. Each recursive call strictly
reduces the range, so fuel `n + 1` is never exhausted. -/
def aquicksortRec (v : List Int) : Nat → Nat → Nat → Int → List Nat → Int × List Nat
  | 0, _, _, depth, t => (depth, t)
  | fuel + 1, pl, pr, depth, t =>
    if pr - pl > 15 then
      if depth < 0 then
        (depth - 1, aheapsortRange v t pl pr)
      else
        let pm := pl + (pr - pl) / 2
        let t1 := med3Adjust v t pl pm pr
        let vp := keyAt v (t1.getD pm 0)
        let t2 := idxSwap t1 pm (pr - 1)
        let pit := partLoop v vp pl pr (pr - pl) pl (pr - 1) t2
        let pi := pit.1
        let t4 := idxSwap pit.2 pi (pr - 1)
        if pi - pl < pr - pi then
          let dt := aquicksortRec v fuel pl (pi - 1) (depth - 1) t4
          aquicksortRec v fuel (pi + 1) pr dt.1 dt.2
        else
          let dt := aquicksortRec v fuel (pi + 1) pr (depth - 1) t4
          aquicksortRec v fuel pl (pi - 1) dt.1 dt.2
    else
      (depth, ains v pl pr t)

/-- `ndarray.argsort(kind='quicksort')` on an `int64`/`datetime64[ns]` array:
numpy initializes `tosort = [0, ..., n-1]` and runs `aquicksort` with
`depth_limit = npy_get_msb(num) * 2`. -/
def npArgsort (v : List Int) : List Nat :=
  let n := v.length
  (aquicksortRec v (n + 1) 0 (n - 1) ((2 * Nat.log2 n : Nat) : Int) (List.range n)).2

/-- `concat(...).sort_values("timestamp").reset_index(drop=True)`'s sorting
step: pandas `nargsort` argsorts the timestamp column with the default
`kind='quicksort'` and takes the rows in that index order (`reset_index`
only renumbers and is the identity on the positional rows). -/
def sortValuesByTs (l : List Record) : List Record :=
  (npArgsort (l.map Record.ts)).map (fun i => l.getD i ⟨0, 0⟩)

/-- A log of 16 records sharing one timestamp, amounts `0..15` in insertion
order (reachable and sorted; ties at a single instant). -/
def tieLog : List Record := (List.range 16).map (fun i => ⟨0, (i : Int)⟩)

/-- Widget state holding `tieLog`. -/
def tieState : WidgetState :=
  { records := tieLog, feedback := ⟨"", FeedbackKind.none⟩,
    chartData := chartSeriesData tieLog }

/-- `tieLog` with one more record at the same timestamp appended. -/
def tieAppended : List Record := tieLog ++ [⟨0, 16⟩]

/-- A small state used to instantiate hypothesis-bearing theorems. -/
def demoState : WidgetState :=
  { records := [⟨5, 7⟩, ⟨9, 2⟩], feedback := ⟨"", FeedbackKind.none⟩,
    chartData := chartSeriesData [⟨5, 7⟩, ⟨9, 2⟩] }

/-- A small mixed sequence of drafts (invalid and valid) used to instantiate
the submit-sequence theorem. -/
def demoDrafts : List Draft :=
  [⟨some 5, some 2⟩, ⟨Option.none, some 3⟩, ⟨some 1, some 7⟩,
   ⟨some 3, Option.none⟩, ⟨some 3, some (-4)⟩, ⟨some 2, some 0⟩]

theorem stableSortTs_tsSorted (l : List Record) : tsSorted (stableSortTs l) :=
  (List.sorted_insertionSort tsLe l).chain'

theorem stableSortTs_perm (l : List Record) : List.Perm (stableSortTs l) l :=
  List.perm_insertionSort tsLe l

/-- Reducing `addRecord` on a valid draft. -/
theorem addRecord_valid (sortImpl : List Record → List Record) (s : WidgetState)
    (t a : Int) (ha : 0 ≤ a) :
    addRecord sortImpl ⟨some t, some a⟩ s =
      some { records := sortImpl (s.records ++ [⟨t, a⟩]),
             chartData := chartSeriesData (sortImpl (s.records ++ [⟨t, a⟩])),
             feedback := ⟨"Record added: " ++ toString a ++ " oranges at " ++
                            fmtTimestamp t, FeedbackKind.success⟩ } := by
  have hna : ¬ a < 0 := not_lt.mpr ha
  simp [addRecord, hna]

/-- One submit step (with the state kept on an exception, which never occurs)
preserves sortedness of the log, for any sort implementation meeting the
`sort_values` contract. -/
theorem addRecord_getD_tsSorted (sortImpl : List Record → List Record)
    (hs : ∀ l, tsSorted (sortImpl l)) (d : Draft) (s : WidgetState)
    (h : tsSorted s.records) :
    tsSorted (((addRecord sortImpl d s).getD s).records) := by
  rcases d with ⟨dts, damt⟩
  cases dts with
  | none => simpa [addRecord] using h
  | some t =>
    cases damt with
    | none => simpa [addRecord] using h
    | some a =>
      by_cases hna : a < 0
      · simpa [addRecord, hna] using h
      · simpa [addRecord, hna] using hs _

/-- C3 counterexample: with a missing timestamp (and a valid amount), the
feedback message produced by `_add_record` is
"Error: Please select a valid timestamp." -- not exactly
"Please select a valid timestamp." as the claim states. -/
theorem missingTs_message_cex :
    (addRecord sortValuesByTs ⟨Option.none, some 5⟩ initState).map
        (fun s2 => s2.feedback.message) =
      some "Error: Please select a valid timestamp." ∧
    (addRecord sortValuesByTs ⟨Option.none, some 5⟩ initState).map
        (fun s2 => s2.feedback.message) ≠
      some "Please select a valid timestamp." := by
  constructor
  · rfl
  · decide

/-- C3 (amended): for every log and every draft whose timestamp is absent,
regardless of the amount value, submit leaves the whole state except the
feedback unchanged (in particular the log) and sets the feedback to kind
error with message exactly "Error: Please select a valid timestamp."; this
check runs first and short-circuits, so it wins even when the amount is also
invalid. -/
theorem missingTs_keeps_log (sortImpl : List Record → List Record) (d : Draft)
    (s : WidgetState) (h : d.ts = Option.none) :
    addRecord sortImpl d s =
      some { s with feedback :=
        ⟨"Error: Please select a valid timestamp.", FeedbackKind.error⟩ } := by
  rcases d with ⟨dts, damt⟩
  cases h
  simp [addRecord]

/-- Witness for the amended C3 at a concrete input. -/
theorem missingTs_keeps_log_witness :
    addRecord sortValuesByTs ⟨Option.none, some 5⟩ tieState =
      some { tieState with feedback :=
        ⟨"Error: Please select a valid timestamp.", FeedbackKind.error⟩ } :=
  missingTs_keeps_log sortValuesByTs ⟨Option.none, some 5⟩ tieState rfl

/-- C4 counterexample: with a present timestamp and a negative amount, the
feedback message produced by `_add_record` is
"Error: Please enter a valid number of oranges." -- not exactly
"Please enter a valid number of oranges." as the claim states. -/
theorem badAmount_message_cex :
    (addRecord sortValuesByTs ⟨some 0, some (-1)⟩ initState).map
        (fun s2 => s2.feedback.message) =
      some "Error: Please enter a valid number of oranges." ∧
    (addRecord sortValuesByTs ⟨some 0, some (-1)⟩ initState).map
        (fun s2 => s2.feedback.message) ≠
      some "Please enter a valid number of oranges." := by
  constructor
  · rfl
  · decide

/-- C4 (amended): for every log and every draft with a present timestamp
whose amount is absent or negative, submit leaves the whole state except the
feedback unchanged (in particular the log) and sets the feedback to kind
error with message exactly "Error: Please enter a valid number of
oranges." -/
theorem badAmount_keeps_log (sortImpl : List Record → List Record) (t : Int)
    (amt : Option Int) (s : WidgetState)
    (h : amt = Option.none ∨ ∃ a, amt = some a ∧ a < 0) :
    addRecord sortImpl ⟨some t, amt⟩ s =
      some { s with feedback :=
        ⟨"Error: Please enter a valid number of oranges.", FeedbackKind.error⟩ } := by
  rcases h with h | ⟨a, rfl, ha⟩
  · cases h
    simp [addRecord]
  · simp [addRecord, ha]

/-- Witness for the amended C4 at a concrete input. -/
theorem badAmount_keeps_log_witness :
    addRecord sortValuesByTs ⟨some 0, some (-1)⟩ demoState =
      some { demoState with feedback :=
        ⟨"Error: Please enter a valid number of oranges.", FeedbackKind.error⟩ } :=
  badAmount_keeps_log sortValuesByTs 0 (some (-1)) demoState
    (Or.inr ⟨-1, rfl, by decide⟩)

/-- C8: submit is total: for every sort implementation, draft (including
absent timestamp, absent amount, or negative amount) and state, `_add_record`
returns a result and no exception propagates (the `Option` model never
reaches `none`: the short-circuiting guards keep `None < 0` and the
formatting of an absent timestamp from being evaluated). -/
theorem addRecord_total (sortImpl : List Record → List Record) (d : Draft)
    (s : WidgetState) : ∃ s2, addRecord sortImpl d s = some s2 := by
  rcases d with ⟨dts, damt⟩
  cases dts with
  | none => exact ⟨_, rfl⟩
  | some t =>
    cases damt with
    | none => exact ⟨_, rfl⟩
    | some a =>
      by_cases hna : a < 0
      · refine ⟨{ s with feedback :=
          ⟨"Error: Please enter a valid number of oranges.", FeedbackKind.error⟩ }, ?_⟩
        simp [addRecord, hna]
      · exact ⟨_, addRecord_valid sortImpl s t a (not_lt.mp hna)⟩

theorem foldSubmits_tsSorted (sortImpl : List Record → List Record)
    (hs : ∀ l, tsSorted (sortImpl l)) :
    ∀ (ds : List Draft) (s : WidgetState), tsSorted s.records →
      tsSorted ((ds.foldl (fun s d => (addRecord sortImpl d s).getD s) s)).records := by
  intro ds
  induction ds with
  | nil => intro s h; exact h
  | cons d ds ih =>
    intro s h
    exact ih _ (addRecord_getD_tsSorted sortImpl hs d s h)

/-- C1: for every sequence of submit calls (valid or invalid drafts, starting
from the empty log) and every sort implementation meeting the `sort_values`
contract of sorting by the timestamp key, after every call the record log is
sorted ascending by timestamp: for all adjacent pairs,
`records[i].timestamp <= records[i+1].timestamp` (every prefix of a sequence
is itself a sequence, so quantifying over all draft sequences covers the
state after each call). -/
theorem submits_log_tsSorted (sortImpl : List Record → List Record)
    (hs : ∀ l, tsSorted (sortImpl l)) (ds : List Draft) :
    tsSorted (runSubmits sortImpl ds).records :=
  foldSubmits_tsSorted sortImpl hs ds initState List.chain'_nil

/-- Witness for C1 at a concrete mixed draft sequence. -/
theorem submits_log_tsSorted_witness :
    tsSorted (runSubmits stableSortTs demoDrafts).records :=
  submits_log_tsSorted stableSortTs stableSortTs_tsSorted demoDrafts

set_option maxRecDepth 4000 in
/-- C2 counterexample: start from a log of 16 records sharing one timestamp
(amounts 0..15 in insertion order) and submit a valid draft with the same
timestamp and amount 16. Appending and stable-sorting leaves the 17 records
in insertion order (the appended log is already sorted, and a stable sort of
a sorted list is the identity), but `_add_record` -- whose
`sort_values("timestamp")` runs numpy's default unstable quicksort -- returns
the ties scrambled, so the resulting log differs from the
append-then-stable-sort of the claim. -/
theorem submit_not_stable_cex :
    tsSorted tieAppended ∧
    stableSortTs tieAppended = tieAppended ∧
    (addRecord sortValuesByTs ⟨some 0, some 16⟩ tieState).map
        (fun s2 => s2.records) ≠ some tieAppended := by
  refine ⟨by decide, by decide, ?_⟩
  decide

/-- C2 (amended): for every log, every valid draft (timestamp present,
amount present and nonnegative) and every sort implementation meeting the
`sort_values` contract (output sorted by timestamp, rows a permutation of
the input), a successful submit produces a log that is sorted ascending by
timestamp and holds exactly the old records plus the new one; the relative
order of records with equal timestamps is implementation-defined rather than
stable, because pandas' default sort kind is an unstable quicksort. -/
theorem submit_append_sort (sortImpl : List Record → List Record)
    (hs : ∀ l, tsSorted (sortImpl l)) (hp : ∀ l, List.Perm (sortImpl l) l)
    (s : WidgetState) (t a : Int) (ha : 0 ≤ a) :
    ∃ s2, addRecord sortImpl ⟨some t, some a⟩ s = some s2 ∧
      tsSorted s2.records ∧
      List.Perm s2.records (s.records ++ [⟨t, a⟩]) :=
  ⟨_, addRecord_valid sortImpl s t a ha, hs _, hp _⟩

/-- Witness for the amended C2 at a concrete input. -/
theorem submit_append_sort_witness :
    ∃ s2, addRecord stableSortTs ⟨some 7, some 4⟩ demoState = some s2 ∧
      tsSorted s2.records ∧
      List.Perm s2.records (demoState.records ++ [⟨7, 4⟩]) :=
  submit_append_sort stableSortTs stableSortTs_tsSorted stableSortTs_perm
    demoState 7 4 (by decide)

/-- C9: for every log, every valid draft and every sort implementation
meeting the `sort_values` contract of permuting its input rows, a successful
submit preserves every existing record: the new log is a permutation of the
old log with the single new record appended (so as multisets of records the
new log is the old one plus exactly the new record), and its length grows by
exactly one -- no record is lost, duplicated, or modified. -/
theorem submit_multiset_frame (sortImpl : List Record → List Record)
    (hp : ∀ l, List.Perm (sortImpl l) l) (s : WidgetState) (t a : Int)
    (ha : 0 ≤ a) :
    ∃ s2, addRecord sortImpl ⟨some t, some a⟩ s = some s2 ∧
      (s2.records : Multiset Record) =
        (s.records : Multiset Record) + {(⟨t, a⟩ : Record)} ∧
      s2.records.length = s.records.length + 1 := by
  refine ⟨_, addRecord_valid sortImpl s t a ha, ?_, ?_⟩
  · have hX := hp (s.records ++ [Record.mk t a])
    show ((sortImpl (s.records ++ [Record.mk t a]) : List Record) : Multiset Record) =
      (s.records : Multiset Record) + {Record.mk t a}
    rw [Multiset.coe_eq_coe.mpr hX, ← Multiset.coe_singleton (Record.mk t a),
      Multiset.coe_add]
  · have hX := hp (s.records ++ [Record.mk t a])
    show (sortImpl (s.records ++ [Record.mk t a])).length = s.records.length + 1
    rw [hX.length_eq]
    simp

/-- Witness for C9 at a concrete input. -/
theorem submit_multiset_frame_witness :
    ∃ s2, addRecord stableSortTs ⟨some 0, some 3⟩ demoState = some s2 ∧
      (s2.records : Multiset Record) =
        (demoState.records : Multiset Record) + {(⟨0, 3⟩ : Record)} ∧
      s2.records.length = demoState.records.length + 1 :=
  submit_multiset_frame stableSortTs stableSortTs_perm demoState 0 3 (by decide)

/-- C10: no deduplication: for every log already containing a record with
timestamp `t` and amount `a`, and every sort implementation meeting the
`sort_values` contract of permuting its input rows, submitting a valid draft
with the same timestamp and amount succeeds (success feedback) and appends
another copy: the log's length grows by one and the number of copies of the
record grows by one. -/
theorem submit_no_dedup (sortImpl : List Record → List Record)
    (hp : ∀ l, List.Perm (sortImpl l) l) (s : WidgetState) (t a : Int)
    (ha : 0 ≤ a) (_hmem : (⟨t, a⟩ : Record) ∈ s.records) :
    ∃ s2, addRecord sortImpl ⟨some t, some a⟩ s = some s2 ∧
      s2.feedback.kind = FeedbackKind.success ∧
      s2.records.length = s.records.length + 1 ∧
      s2.records.count (⟨t, a⟩ : Record) =
        s.records.count (⟨t, a⟩ : Record) + 1 := by
  refine ⟨_, addRecord_valid sortImpl s t a ha, rfl, ?_, ?_⟩
  · have hX := hp (s.records ++ [Record.mk t a])
    show (sortImpl (s.records ++ [Record.mk t a])).length = s.records.length + 1
    rw [hX.length_eq]
    simp
  · have hX := hp (s.records ++ [Record.mk t a])
    show (sortImpl (s.records ++ [Record.mk t a])).count (Record.mk t a) =
      s.records.count (Record.mk t a) + 1
    rw [hX.count_eq (Record.mk t a)]
    simp

/-- Witness for C10 at a concrete input: the log already contains the record
`(5, 7)` and the same record is submitted again. -/
theorem submit_no_dedup_witness :
    ∃ s2, addRecord stableSortTs ⟨some 5, some 7⟩ demoState = some s2 ∧
      s2.feedback.kind = FeedbackKind.success ∧
      s2.records.length = demoState.records.length + 1 ∧
      s2.records.count (⟨5, 7⟩ : Record) =
        demoState.records.count (⟨5, 7⟩ : Record) + 1 :=
  submit_no_dedup stableSortTs stableSortTs_perm demoState 5 7 (by decide)
    (by decide)

theorem tsSeconds_mul_1000 (t : Int) : tsSeconds t * 1000 = (t : ℚ) / 1000000 := by
  unfold tsSeconds
  field_simp
  ring

/-- C5: for every log, the chart series derived by `_update_chart` is a
sequence of (timestamp, amount) pairs of the same length as the log, with the
pairs in the log's order and each timestamp converted to milliseconds since
the epoch (the nanosecond instant divided by 10^6, computed in the source as
`ts.timestamp() * 1000`); in particular, for the empty log it is the empty
series. -/
theorem chartSeriesData_spec :
    (∀ l : List Record, chartSeriesData l =
        l.map (fun r => ((r.ts : ℚ) / 1000000, r.amount))) ∧
    (∀ l : List Record, (chartSeriesData l).length = l.length) ∧
    chartSeriesData [] = [] := by
  have hmap : ∀ l : List Record, chartSeriesData l =
      l.map (fun r => ((r.ts : ℚ) / 1000000, r.amount)) := by
    intro l
    unfold chartSeriesData
    rw [List.zip_map', List.map_map]
    simp only [Function.comp, tsSeconds_mul_1000]
    rfl
  refine ⟨hmap, fun l => ?_, rfl⟩
  rw [hmap l, List.length_map]

/-- C6: for every state, every sort implementation and every valid draft with
timestamp `t` and amount `a`, a successful submit sets the feedback to kind
success with message
"Record added: {a} oranges at {t formatted as YYYY-MM-DD HH:MM:SS}", the
timestamp formatted by strftime pattern `%Y-%m-%d %H:%M:%S` as embedded in
`fmtTimestamp`. -/
theorem success_feedback_message (sortImpl : List Record → List Record)
    (s : WidgetState) (t a : Int) (ha : 0 ≤ a) :
    (addRecord sortImpl ⟨some t, some a⟩ s).map (fun s2 => s2.feedback) =
      some ⟨"Record added: " ++ toString a ++ " oranges at " ++ fmtTimestamp t,
            FeedbackKind.success⟩ := by
  rw [addRecord_valid sortImpl s t a ha]
  rfl

/-- Witness for C6 at a concrete input: submitting 5 oranges at the instant
2024-01-01T08:00:00 (1704096000 seconds after the epoch). -/
theorem success_feedback_message_witness :
    (addRecord sortValuesByTs ⟨some 1704096000000000000, some 5⟩ initState).map
        (fun s2 => s2.feedback) =
      some ⟨"Record added: 5 oranges at 2024-01-01 08:00:00",
            FeedbackKind.success⟩ := by
  have h := success_feedback_message sortValuesByTs initState
    1704096000000000000 5 (by decide)
  rw [h]
  decide

/-- C7: the chart derivation is a pure, deterministic function of the log:
`_update_chart` reads `records` and writes only the chart object, so it
leaves `records` and `feedback` unchanged, and running it twice from the same
state produces exactly the state produced by running it once (identical
output, no hidden state). -/
theorem updateChart_pure :
    (∀ s : WidgetState, (updateChart s).records = s.records) ∧
    (∀ s : WidgetState, (updateChart s).feedback = s.feedback) ∧
    (∀ s : WidgetState, updateChart (updateChart s) = updateChart s) :=
  ⟨fun _ => rfl, fun _ => rfl, fun _ => rfl⟩
